import Mathlib

/-!
Verification of the scene-graph / per-frame pipeline of the MainEngine
application (source: src/MainEngine.cpp).  The engine-side classes that
MainEngine.cpp calls into (Node, Transform, Lights, Renderer, camera nodes)
are declared in headers not present in the source tree; where a claim
depends on them they are modelled from the specification, and each such
definition says so in its doc comment.
-/

namespace SceneGraph

/-- A scene-graph node as the spec describes it for transform propagation:
a local matrix, a derived world matrix, and an ordered list of owned
children.  Matrices are kept abstract (`M` with `Mul`/`One`): the world
transform pass only ever multiplies them, so every theorem below holds for
the concrete 4x4 float matrices of the code as well, since the equalities
proved are between identical sequences of multiplications. -/
inductive SceneNode (M : Type) where
  | mk (localMatrix : M) (worldMatrix : M) (children : List (SceneNode M))

variable {M : Type}

/-- Modelled from the spec: `Transform::ComputeWorldMatrix(parentWorld)`
returns `parentWorld * localMatrix` (Transform.cpp is not in the source
tree; only its caller `sceneRoot.CalculateWorldTransform()` at
MainEngine.cpp:118 is). -/
def ComputeWorldMatrix [Mul M] (parentWorld localMatrix : M) : M :=
  parentWorld * localMatrix

mutual

/-- Modelled from the spec: `Node::CalculateWorldTransform(parentWorld)`
recomputes this node's world matrix from `parentWorld`, then recurses into
the children passing its own freshly computed world matrix (Node.cpp is
not in the source tree). -/
def CalculateWorldTransform [Mul M] (parentWorld : M) :
    SceneNode M → SceneNode M
  | .mk l _ cs =>
      .mk l (ComputeWorldMatrix parentWorld l)
        (CalculateWorldTransformList (ComputeWorldMatrix parentWorld l) cs)

/-- Recursion of `CalculateWorldTransform` over a child list, in sibling
insertion order. -/
def CalculateWorldTransformList [Mul M] (parentWorld : M) :
    List (SceneNode M) → List (SceneNode M)
  | [] => []
  | c :: cs =>
      CalculateWorldTransform parentWorld c ::
        CalculateWorldTransformList parentWorld cs

end

/-- A chain of nodes: the head local matrix at the root, each further
local matrix one level deeper, world matrices initialised arbitrarily
(here to `1`, i.e. not yet computed). -/
def chainNode [One M] : M → List M → SceneNode M
  | l, [] => .mk l 1 []
  | l, l' :: ls => .mk l 1 [chainNode l' ls]

/-- The world matrix of the deepest node of a chain (first-child descent). -/
def deepestWorld : SceneNode M → M
  | .mk _ w [] => w
  | .mk _ _ (c :: _) => deepestWorld c

end SceneGraph

namespace MainEngine

/-- The per-frame phases of `MainEngine::MainLoop`
(MainEngine.cpp:96-133). -/
inductive Phase where
  | sceneUpdate
  | calculateWorldTransform
  | sceneDraw
  | rendererDraw
  | lightGizmoDraw
  | skyboxDraw
  | uiOverlay
  deriving DecidableEq

/-- The body of one `MainLoop` iteration (MainEngine.cpp:117-129), as the
list of phases in program order: `sceneRoot.Update` (117),
`sceneRoot.CalculateWorldTransform` (118), `sceneRoot.Draw` (119),
`renderer.Draw` (121), `sceneLight->DrawGizmos` (122), the skybox draw
guarded by `if (skybox)` (124-125), then the `UpdateWidget` UI overlay and
ImGui render (127-129).  The loop is single-threaded straight-line code, so
each phase completes before the next begins. -/
def frameSequence (hasSkybox : Bool) : List Phase :=
  [.sceneUpdate, .calculateWorldTransform, .sceneDraw, .rendererDraw,
    .lightGizmoDraw]
  ++ (if hasSkybox then [.skyboxDraw] else [])
  ++ [.uiOverlay]

/-- The environment a `MainEngine::Init` run observes: whether `glfwInit`
succeeds, whether `glfwCreateWindow` returns a window, and whether
`gladLoadGLLoader` succeeds (MainEngine.cpp:29-66). -/
structure InitEnv where
  glfwInitOk : Bool
  windowCreated : Bool
  gladOk : Bool

/-- `MainEngine::InitializeWindow` (MainEngine.cpp:68-80): reports and
returns 1 when `glfwCreateWindow` returned null, otherwise 0. -/
def InitializeWindow (env : InitEnv) : Int :=
  if env.windowCreated then 0 else 1

/-- `MainEngine::Init` (MainEngine.cpp:29-66): returns 1 if `glfwInit`
fails, 1 if `InitializeWindow()` returns nonzero, 1 if the GL loader setup
fails, and 0 after all steps succeed. -/
def Init (env : InitEnv) : Int :=
  if !env.glfwInitOk then 1
  else if InitializeWindow env ≠ 0 then 1
  else if !env.gladOk then 1
  else 0

/-- Modelled from the spec: the program enters the main loop only when
initialization reported success (`main` itself is not in the source tree;
the spec says initialization failures are fatal and the program exits
before entering the loop). -/
def entersMainLoop (env : InitEnv) : Bool :=
  Init env == 0

end MainEngine

namespace Renderer

/-- One renderer submission, as the spec describes `Submit`: a drawable
reference, its material, and its world transform.  Drawable and material
identities are kept abstract with decidable equality. -/
structure Submission (D Mat T : Type) where
  drawable : D
  material : Mat
  transform : T
  deriving DecidableEq

variable {D Mat T : Type} [DecidableEq D] [DecidableEq Mat]

/-- Modelled from the spec: the grouping key test of `Renderer::Draw` —
batch membership is determined by (drawable identity, material identity)
equality (Renderer.cpp is not in the source tree; only its caller
`renderer.Draw(this)` at MainEngine.cpp:121 is). -/
def keyMatches (d : D) (m : Mat) (s : Submission D Mat T) : Bool :=
  decide (s.drawable = d) && decide (s.material = m)

/-- Modelled from the spec: the per-group instance transforms that
`Renderer::Draw` uploads for the group keyed by `(d, m)`, taken as a
multiset since the claim compares groups as multisets. -/
def groupInstances (subs : List (Submission D Mat T)) (d : D) (m : Mat) :
    Multiset T :=
  ((subs.filter (keyMatches d m)).map Submission.transform : List T)

end Renderer

namespace Nodes

/-- The node kinds that occur in the scene assembled by
`MainEngine::PrepareScene` (MainEngine.cpp:276-337): the plain scene root,
`FreeCameraNode`, `MotorcycleNode`, and `ModelNode`. -/
inductive NodeKind where
  | plain
  | freeCamera
  | motorcycle
  | model
  deriving DecidableEq

/-- Modelled from the spec: a scene-graph `Node` as the search/activation
claims need it — a behaviour tag, an "is the active camera" flag, and an
ordered list of owned children (Node.h / Node.cpp are not in the source
tree; only their callers in MainEngine.cpp are). -/
inductive Node where
  | mk (kind : NodeKind) (active : Bool) (children : List Node)

/-- The kind of a node. -/
def Node.kind : Node → NodeKind
  | .mk k _ _ => k

/-- The active-camera flag of a node. -/
def Node.active : Node → Bool
  | .mk _ a _ => a

mutual

/-- All nodes of a subtree in depth-first preorder, siblings in insertion
order. -/
def listNodes : Node → List Node
  | .mk k a cs => .mk k a cs :: listNodesList cs

/-- `listNodes` over a child list. -/
def listNodesList : List Node → List Node
  | [] => []
  | n :: ns => listNodes n ++ listNodesList ns

end

mutual

/-- Modelled from the spec: `Node::GetChild(predicate)` — a single
depth-first search returning the first node of the subtree satisfying the
caller-supplied predicate, or the explicit not-found outcome `none`
(Node.cpp is not in the source tree; only its callers at
MainEngine.cpp:145 and 154 are). -/
def GetChild (p : Node → Bool) : Node → Option Node
  | .mk k a cs =>
      if p (.mk k a cs) then some (.mk k a cs) else GetChildList p cs

/-- `GetChild` over a child list, in insertion order. -/
def GetChildList (p : Node → Bool) : List Node → Option Node
  | [] => none
  | n :: ns =>
      match GetChild p n with
      | some r => some r
      | none => GetChildList p ns

end

/-- The intended test of the lambda at MainEngine.cpp:145-148: whether the
node is a `MotorcycleNode` (the `dynamic_cast` succeeds). -/
def isMotorcycleNode (n : Node) : Bool :=
  decide (n.kind = NodeKind.motorcycle)

/-- The intended test of the lambda at MainEngine.cpp:154-157: whether the
node is a `FreeCameraNode`. -/
def isFreeCameraNode (n : Node) : Bool :=
  decide (n.kind = NodeKind.freeCamera)

/-- The predicate lambda at MainEngine.cpp:145-148 as written: it returns
`true` when the `dynamic_cast` to `MotorcycleNode*` succeeds, but for any
other node control falls off the end of the value-returning lambda, which
is undefined behaviour in C++ — modelled as a partial predicate returning
`none` (no definitive Boolean) on that path. -/
def motorcyclePredicateSrc (n : Node) : Option Bool :=
  if n.kind = NodeKind.motorcycle then some true else none

/-- The lookup-and-dereference sequence of `MainEngine::UpdateWidget`
(MainEngine.cpp:145-160): find a `MotorcycleNode` and call `SetIsActive`
through the result with no null check, and, when the motorcycle checkbox is
off, find a `FreeCameraNode` and call `SetActive` through the result with
no null check.  `none` marks a dereference of an absent (null) result. -/
def UpdateWidgetDeref (t : Node) (isMotorcycle : Bool) : Option Unit :=
  match GetChild isMotorcycleNode t with
  | none => none
  | some _ =>
      if isMotorcycle then some ()
      else
        match GetChild isFreeCameraNode t with
        | none => none
        | some _ => some ()

mutual

/-- Modelled from the spec: the deactivate-every-camera half of the
activation protocol ("global search + deactivate-all-but-one"). -/
def deactivateAll : Node → Node
  | .mk k _ cs => .mk k false (deactivateAllList cs)

/-- `deactivateAll` over a child list. -/
def deactivateAllList : List Node → List Node
  | [] => []
  | n :: ns => deactivateAll n :: deactivateAllList ns

end

mutual

/-- Set the active flag of the node at the given child-index path (the
node being activated, identified by its unique position in the tree). -/
def setActiveAt : Node → List Nat → Node
  | .mk k _ cs, [] => .mk k true cs
  | .mk k a cs, j :: p => .mk k a (setActiveAtList cs j p)

/-- `setActiveAt` over a child list: descend into the `j`-th child. -/
def setActiveAtList : List Node → Nat → List Nat → List Node
  | [], _, _ => []
  | n :: ns, 0, p => setActiveAt n p :: ns
  | n :: ns, j + 1, p => n :: setActiveAtList ns j p

end

/-- Modelled from the spec: `CameraNode::SetActive` (called at
MainEngine.cpp:281 and 159) — activating one camera node deactivates every
other node in the tree: all nodes are deactivated, then the node at `path`
is activated. -/
def SetActive (t : Node) (path : List Nat) : Node :=
  setActiveAt (deactivateAll t) path

mutual

/-- The number of nodes of a subtree whose active flag is set. -/
def activeCount : Node → Nat
  | .mk _ a cs => (if a then 1 else 0) + activeCountList cs

/-- `activeCount` over a child list. -/
def activeCountList : List Node → Nat
  | [] => 0
  | n :: ns => activeCount n + activeCountList ns

end

/-- A sequence of camera-activation calls, applied in order. -/
def applyActivations (t : Node) (calls : List (List Nat)) : Node :=
  calls.foldl SetActive t

/-- The `FreeCameraNode` added first by `PrepareScene`
(MainEngine.cpp:279-281) and immediately activated. -/
def freeCameraNode : Node := .mk .freeCamera true []

/-- The grass `ModelNode` added by `PrepareScene` (MainEngine.cpp:289-292). -/
def grassNode : Node := .mk .model false []

/-- One house: a base `ModelNode` owning a roof `ModelNode` child
(MainEngine.cpp:298-315). -/
def houseNode : Node := .mk .model false [.mk .model false []]

/-- The `MotorcycleNode` added last by `PrepareScene`
(MainEngine.cpp:334-336). -/
def motorcycleNode : Node := .mk .motorcycle false []

/-- The child list `PrepareScene` gives the scene root, in insertion
order: the free camera, the grass plane, 50 x 50 houses, then the
motorcycle (MainEngine.cpp:276-337). -/
def prepareSceneChildren : List Node :=
  freeCameraNode :: grassNode ::
    (List.replicate 2500 houseNode ++ [motorcycleNode])

/-- The scene root after `PrepareScene` (MainEngine.cpp:276-337). -/
def prepareSceneRoot : Node := .mk .plain false prepareSceneChildren

/-- A scene root with no children: the state of `sceneRoot` before
`PrepareScene` runs (MainEngine.cpp:230-232 constructs it empty). -/
def emptySceneRoot : Node := .mk .plain false []

/-- A small scene with two camera nodes, used to exercise the activation
protocol on a concrete input. -/
def twoCameraScene : Node :=
  .mk .plain false [.mk .freeCamera false [], .mk .freeCamera false []]

end Nodes

namespace SceneGraph

variable {M : Type}

/-- On a chain, the world-transform pass leaves the deepest node with the
left-to-right product of the local matrices, seeded by the parent world. -/
theorem deepestWorld_chain [Mul M] [One M] (pw l : M) (ls : List M) :
    deepestWorld (CalculateWorldTransform pw (chainNode l ls)) =
      List.foldl (· * ·) pw (l :: ls) := by
  induction ls generalizing pw l with
  | nil => rfl
  | cons l' ls ih =>
      simp only [chainNode, CalculateWorldTransform, ComputeWorldMatrix,
        CalculateWorldTransformList, deepestWorld, List.foldl]
      exact ih (pw * l) l'

mutual

/-- Recomputing world transforms a second time with the same parent world
changes nothing: the pass reads only local matrices, which it preserves. -/
theorem CalculateWorldTransform_idem [Mul M] (pw : M) :
    (t : SceneNode M) →
      CalculateWorldTransform pw (CalculateWorldTransform pw t) =
        CalculateWorldTransform pw t
  | .mk l _ cs => by
      simp only [CalculateWorldTransform, ComputeWorldMatrix]
      rw [CalculateWorldTransformList_idem (pw * l) cs]

/-- List version of `CalculateWorldTransform_idem`. -/
theorem CalculateWorldTransformList_idem [Mul M] (pw : M) :
    (cs : List (SceneNode M)) →
      CalculateWorldTransformList pw (CalculateWorldTransformList pw cs) =
        CalculateWorldTransformList pw cs
  | [] => rfl
  | c :: cs => by
      simp only [CalculateWorldTransformList]
      rw [CalculateWorldTransform_idem pw c,
        CalculateWorldTransformList_idem pw cs]

end

end SceneGraph

/-- C1: for every chain of N nodes with known local transforms, after a
CalculateWorldTransform pass starting at the root (parent world = identity),
the world transform of the deepest node equals the product of all its
ancestors' local matrices times its own, in root-to-leaf order, each node's
world matrix being parentWorld * localMatrix. -/
theorem claim_C1_chain_deepest_world {M : Type} [Mul M] [One M]
    (l : M) (ls : List M) :
    SceneGraph.deepestWorld
        (SceneGraph.CalculateWorldTransform 1 (SceneGraph.chainNode l ls)) =
      List.foldl (· * ·) 1 (l :: ls) :=
  SceneGraph.deepestWorld_chain 1 l ls

/-- C6: CalculateWorldTransform is idempotent — for every scene tree,
running the pass twice in succession (both from the identity parent world,
as the per-frame call at MainEngine.cpp:118 does) with no intervening local
mutation yields an identical tree, hence identical world matrices at every
node. -/
theorem claim_C6_calculateWorldTransform_idempotent {M : Type} [Mul M]
    [One M] (t : SceneGraph.SceneNode M) :
    SceneGraph.CalculateWorldTransform 1
        (SceneGraph.CalculateWorldTransform 1 t) =
      SceneGraph.CalculateWorldTransform 1 t :=
  SceneGraph.CalculateWorldTransform_idem 1 t

/-- C2: in every iteration of the main loop, the per-frame phases run in
the fixed order scene Update, CalculateWorldTransform, scene Draw,
Renderer.Draw flush, light-gizmo draw, optional skybox draw, UI overlay —
whether or not a skybox exists; every mandatory phase occurs exactly once
per frame, the skybox draw occurs exactly when a skybox exists, and in
particular CalculateWorldTransform runs after Update and before Draw. -/
theorem claim_C2_frame_phase_order (b : Bool) :
    ((MainEngine.frameSequence b).indexOf .sceneUpdate <
        (MainEngine.frameSequence b).indexOf .calculateWorldTransform ∧
      (MainEngine.frameSequence b).indexOf .calculateWorldTransform <
        (MainEngine.frameSequence b).indexOf .sceneDraw ∧
      (MainEngine.frameSequence b).indexOf .sceneDraw <
        (MainEngine.frameSequence b).indexOf .rendererDraw ∧
      (MainEngine.frameSequence b).indexOf .rendererDraw <
        (MainEngine.frameSequence b).indexOf .lightGizmoDraw ∧
      (MainEngine.frameSequence b).indexOf .lightGizmoDraw <
        (MainEngine.frameSequence b).indexOf .uiOverlay) ∧
    (b = true →
      (MainEngine.frameSequence b).indexOf .lightGizmoDraw <
          (MainEngine.frameSequence b).indexOf .skyboxDraw ∧
        (MainEngine.frameSequence b).indexOf .skyboxDraw <
          (MainEngine.frameSequence b).indexOf .uiOverlay) ∧
    ((MainEngine.frameSequence b).count .sceneUpdate = 1 ∧
      (MainEngine.frameSequence b).count .calculateWorldTransform = 1 ∧
      (MainEngine.frameSequence b).count .sceneDraw = 1 ∧
      (MainEngine.frameSequence b).count .rendererDraw = 1 ∧
      (MainEngine.frameSequence b).count .lightGizmoDraw = 1 ∧
      (MainEngine.frameSequence b).count .uiOverlay = 1 ∧
      (MainEngine.frameSequence b).count .skyboxDraw =
        (if b then 1 else 0)) := by
  cases b <;> decide

/-- C7: renderer batching is order-independent — for every two submission
lists that are permutations of each other (the same multiset of
(mesh, material, transform) submissions in two traversal orders), every
(drawable, material) group receives the same multiset of instance
transforms, membership being determined by key equality alone. -/
theorem claim_C7_batching_order_independent {D Mat T : Type}
    [DecidableEq D] [DecidableEq Mat]
    (s1 s2 : List (Renderer.Submission D Mat T)) (h : s1.Perm s2)
    (d : D) (m : Mat) :
    Renderer.groupInstances s1 d m = Renderer.groupInstances s2 d m :=
  Multiset.coe_eq_coe.mpr
    ((h.filter (Renderer.keyMatches d m)).map Renderer.Submission.transform)

/-- Witness for C7 at concrete submissions: two orders of three
submissions, two of which share the key (1, 2). -/
theorem claim_C7_batching_order_independent_witness :
    (([⟨1, 2, 10⟩, ⟨1, 2, 20⟩, ⟨3, 2, 30⟩] :
        List (Renderer.Submission Nat Nat Nat)).Perm
      [⟨3, 2, 30⟩, ⟨1, 2, 20⟩, ⟨1, 2, 10⟩]) ∧
    Renderer.groupInstances
        ([⟨1, 2, 10⟩, ⟨1, 2, 20⟩, ⟨3, 2, 30⟩] :
          List (Renderer.Submission Nat Nat Nat)) 1 2 =
      Renderer.groupInstances
        ([⟨3, 2, 30⟩, ⟨1, 2, 20⟩, ⟨1, 2, 10⟩] :
          List (Renderer.Submission Nat Nat Nat)) 1 2 :=
  ⟨by decide,
    claim_C7_batching_order_independent _ _ (by decide) 1 2⟩

/-- C8: if any initialization step fails (GLFW initialization, window
creation, or GL loader setup) Init returns the nonzero code 1 — so the
program does not enter the main loop — and if all steps succeed Init
returns 0; Init never returns any code other than 0 or 1, and the main
loop is entered exactly when Init returned 0, i.e. exactly when all three
steps succeeded. -/
theorem claim_C8_init_failure_codes (env : MainEngine.InitEnv) :
    (MainEngine.Init env = 0 ∨ MainEngine.Init env = 1) ∧
    (MainEngine.Init env = 0 ↔
      env.glfwInitOk = true ∧ env.windowCreated = true ∧
        env.gladOk = true) ∧
    (MainEngine.entersMainLoop env = true ↔ MainEngine.Init env = 0) := by
  obtain ⟨a, b, c⟩ := env
  cases a <;> cases b <;> cases c <;> decide

namespace Nodes

mutual

/-- `GetChild` returns the explicit not-found outcome exactly when no node
of the subtree satisfies the predicate. -/
theorem GetChild_eq_none_iff (p : Node → Bool) :
    (t : Node) →
      (GetChild p t = none ↔ ∀ n ∈ listNodes t, p n = false)
  | .mk k a cs => by
      simp only [GetChild, listNodes, List.forall_mem_cons]
      cases hp : p (Node.mk k a cs) with
      | true => simp [hp]
      | false => simp [hp, GetChildList_eq_none_iff p cs]

/-- List version of `GetChild_eq_none_iff`. -/
theorem GetChildList_eq_none_iff (p : Node → Bool) :
    (ns : List Node) →
      (GetChildList p ns = none ↔ ∀ n ∈ listNodesList ns, p n = false)
  | [] => by simp [GetChildList, listNodesList]
  | n :: ns => by
      simp only [GetChildList, listNodesList, List.forall_mem_append]
      cases hg : GetChild p n with
      | some r =>
          constructor
          · exact fun h => Option.noConfusion h
          · intro h
            rw [(GetChild_eq_none_iff p n).mpr h.1] at hg
            exact Option.noConfusion hg
      | none =>
          rw [GetChildList_eq_none_iff p ns]
          have hn : ∀ x ∈ listNodes n, p x = false :=
            (GetChild_eq_none_iff p n).mp hg
          exact ⟨fun h => ⟨hn, h⟩, fun h => h.2⟩

end

/-- `GetChild` finds a node exactly when some node of the subtree
satisfies the predicate. -/
theorem GetChild_isSome_iff (p : Node → Bool) (t : Node) :
    (GetChild p t).isSome = true ↔ ∃ n ∈ listNodes t, p n = true := by
  rw [Option.isSome_iff_ne_none, Ne, GetChild_eq_none_iff]
  push_neg
  simp [Bool.not_eq_false]

mutual

/-- After `deactivateAll`, no node is active. -/
theorem activeCount_deactivateAll :
    (t : Node) → activeCount (deactivateAll t) = 0
  | .mk k a cs => by
      simp only [deactivateAll, activeCount, if_neg Bool.false_ne_true,
        activeCountList_deactivateAllList cs]

/-- List version of `activeCount_deactivateAll`. -/
theorem activeCountList_deactivateAllList :
    (ns : List Node) → activeCountList (deactivateAllList ns) = 0
  | [] => rfl
  | n :: ns => by
      simp only [deactivateAllList, activeCountList,
        activeCount_deactivateAll n, activeCountList_deactivateAllList ns]

end

mutual

/-- Activating the node at one path raises the active count by at most
one. -/
theorem activeCount_setActiveAt :
    (t : Node) → (path : List Nat) →
      activeCount (setActiveAt t path) ≤ activeCount t + 1
  | .mk k a cs, [] => by
      simp only [setActiveAt, activeCount]
      cases a <;> simp only [reduceIte] <;> omega
  | .mk k a cs, j :: p => by
      simp only [setActiveAt, activeCount]
      have := activeCountList_setActiveAtList cs j p
      omega

/-- List version of `activeCount_setActiveAt`. -/
theorem activeCountList_setActiveAtList :
    (ns : List Node) → (j : Nat) → (p : List Nat) →
      activeCountList (setActiveAtList ns j p) ≤ activeCountList ns + 1
  | [], _, _ => by simp [setActiveAtList, activeCountList]
  | n :: ns, 0, p => by
      simp only [setActiveAtList, activeCountList]
      have := activeCount_setActiveAt n p
      omega
  | n :: ns, j + 1, p => by
      simp only [setActiveAtList, activeCountList]
      have := activeCountList_setActiveAtList ns j p
      omega

end

/-- Every single activation call leaves at most one node active,
whatever the state before it. -/
theorem activeCount_SetActive_le_one (t : Node) (path : List Nat) :
    activeCount (SetActive t path) ≤ 1 := by
  have h := activeCount_setActiveAt (deactivateAll t) path
  rw [activeCount_deactivateAll t] at h
  exact h

end Nodes

/-- C3: for any sequence of camera-activation calls on nodes of any scene
tree that starts with at most one active node, at most one node in the
tree reports active at any time — each call deactivates every other node
before activating its target, so every intermediate state (reached by the
corresponding prefix of the call sequence, itself an instance of this
statement) has at most one active node. -/
theorem claim_C3_at_most_one_active_camera (t : Nodes.Node)
    (h : Nodes.activeCount t ≤ 1) (calls : List (List Nat)) :
    Nodes.activeCount (Nodes.applyActivations t calls) ≤ 1 := by
  induction calls generalizing t with
  | nil => exact h
  | cons c cs ih =>
      simp only [Nodes.applyActivations, List.foldl] at ih ⊢
      exact ih _ (Nodes.activeCount_SetActive_le_one t c)

/-- Witness for C3 at a concrete scene: two camera nodes, the first
activated and then the second. -/
theorem claim_C3_at_most_one_active_camera_witness :
    Nodes.activeCount Nodes.twoCameraScene ≤ 1 ∧
      Nodes.activeCount
          (Nodes.applyActivations Nodes.twoCameraScene [[0], [1]]) ≤ 1 :=
  ⟨by decide, claim_C3_at_most_one_active_camera _ (by decide) _⟩

/-- C4 (failing half, at a concrete input): over a subtree containing no
match — the empty scene root, which holds no MotorcycleNode and no
FreeCameraNode — GetChild does return the explicit not-found outcome and
never a match, but the caller UpdateWidget dereferences the absent result
(the unchecked `motorcycle->SetIsActive` at MainEngine.cpp:150, and with
the checkbox off the unchecked `freeCamera->SetActive` at
MainEngine.cpp:159), refuting the claim's "callers do not dereference an
absent result". -/
theorem claim_C4_caller_dereferences_absent_result :
    Nodes.GetChild Nodes.isMotorcycleNode Nodes.emptySceneRoot = none ∧
      Nodes.UpdateWidgetDeref Nodes.emptySceneRoot false = none ∧
      Nodes.UpdateWidgetDeref Nodes.emptySceneRoot true = none :=
  ⟨rfl, rfl, rfl⟩

/-- C5 (failing, at a concrete input): the predicate lambda passed to
GetChild at MainEngine.cpp:145-148 yields no definitive Boolean for the
FreeCameraNode — control falls off the end of the value-returning lambda,
which is undefined behaviour — and that node is in the subtree scanned by
`sceneRoot.GetChild` in the scene PrepareScene builds (it is the first
child added, MainEngine.cpp:280, while the only MotorcycleNode is added
last), so the scan applies the predicate to it. -/
theorem claim_C5_predicate_not_definitive_on_visited_node :
    Nodes.motorcyclePredicateSrc Nodes.freeCameraNode = none ∧
      Nodes.freeCameraNode ∈ Nodes.listNodes Nodes.prepareSceneRoot := by
  refine ⟨rfl, ?_⟩
  have h : Nodes.listNodes Nodes.prepareSceneRoot =
      Nodes.prepareSceneRoot :: Nodes.freeCameraNode ::
        Nodes.listNodesList (Nodes.grassNode ::
          (List.replicate 2500 Nodes.houseNode ++
            [Nodes.motorcycleNode])) := rfl
  rw [h]
  exact List.mem_cons_of_mem _ (List.mem_cons_self _ _)

/-- C9: UpdateWidget's lookup-and-dereference sequence succeeds without an
absent-result dereference exactly when the scene tree contains a
MotorcycleNode and, whenever the motorcycle checkbox is off, also a
FreeCameraNode; under those preconditions no absent-result dereference
occurs, and without them one does. -/
theorem claim_C9_updateWidget_dereference_preconditions
    (t : Nodes.Node) (isMotorcycle : Bool) :
    Nodes.UpdateWidgetDeref t isMotorcycle = some () ↔
      ((∃ n ∈ Nodes.listNodes t, Nodes.isMotorcycleNode n = true) ∧
        (isMotorcycle = false →
          ∃ n ∈ Nodes.listNodes t, Nodes.isFreeCameraNode n = true)) := by
  cases hm : Nodes.GetChild Nodes.isMotorcycleNode t with
  | none =>
      have h1 : ¬ ∃ n ∈ Nodes.listNodes t,
          Nodes.isMotorcycleNode n = true := by
        rw [← Nodes.GetChild_isSome_iff]
        simp [hm]
      simp [Nodes.UpdateWidgetDeref, hm, h1]
  | some r =>
      have h1 : ∃ n ∈ Nodes.listNodes t,
          Nodes.isMotorcycleNode n = true := by
        rw [← Nodes.GetChild_isSome_iff]
        simp [hm]
      cases isMotorcycle with
      | true => simp [Nodes.UpdateWidgetDeref, hm, h1]
      | false =>
          cases hc : Nodes.GetChild Nodes.isFreeCameraNode t with
          | none =>
              have h2 : ¬ ∃ n ∈ Nodes.listNodes t,
                  Nodes.isFreeCameraNode n = true := by
                rw [← Nodes.GetChild_isSome_iff]
                simp [hc]
              simp [Nodes.UpdateWidgetDeref, hm, hc, h1, h2]
          | some c =>
              have h2 : ∃ n ∈ Nodes.listNodes t,
                  Nodes.isFreeCameraNode n = true := by
                rw [← Nodes.GetChild_isSome_iff]
                simp [hc]
              simp [Nodes.UpdateWidgetDeref, hm, hc, h1, h2]
